import Mathlib

/-!
Shallow embedding of the message-ingestion core of the repository
(`src/agent/research_canvas/telegram/telegram_monitor.py`), together with
theorems settling the specification claims about it.

Modelling conventions:
* Python floats are modelled as rationals (`ℚ`).
* Fallible Python code is modelled with `Except Unit` (an uncaught exception
  is `.error ()`); the external scoring capability, the media download/upload
  and the warehouse update are parameters describing each call's outcome.
* Python dicts that come out of `json.loads` have distinct keys (duplicate
  keys are merged by the parser), so they are modelled as association lists
  with first-match lookup.
* Python string builtins (`str.strip`, `int(...)`, `float(...)` on strings)
  are modelled by executable character-list functions.
-/

namespace Veriver

/-- A Python value as it can appear in `message_data` dicts and in parsed
JSON objects: `None`, `bool`, `int`, `float` (modelled as `ℚ`) or `str`. -/
inductive PyVal where
  | null
  | pybool (b : Bool)
  | int (n : Int)
  | float (q : ℚ)
  | str (s : String)
deriving DecidableEq

/-- A `message_data` argument to `InitialAnalyzer.analyze`: a Python dict
from string keys to values. -/
abbrev MessageData := List (String × PyVal)

/-- `d.get(k, default)` on a Python dict (first-match lookup). -/
def dictGetD (d : MessageData) (k : String) (v : PyVal) : PyVal :=
  match d.find? (fun kv => kv.1 == k) with
  | some kv => kv.2
  | none => v

/-- Whitespace for the model of Python `str.strip()`. -/
def pyIsSpace (c : Char) : Bool :=
  c == ' ' || c == '\t' || c == '\n' || c == '\r'

/-- Model of Python `str.strip()`: removes leading and trailing whitespace. -/
def pyStrip (s : String) : String :=
  String.mk (((s.data.dropWhile pyIsSpace).reverse.dropWhile pyIsSpace).reverse)

/-- Decimal digit-string value (callers guarantee the digits). -/
def digitsToNat (cs : List Char) : Nat :=
  cs.foldl (fun acc c => acc * 10 + (c.toNat - 48)) 0

/-- Parse a non-empty all-digit character list as a natural number. -/
def parseNat? (cs : List Char) : Option Nat :=
  if cs.isEmpty then none
  else if cs.all Char.isDigit then some (digitsToNat cs) else none

/-- Model of Python `str(v)` on the values above. -/
def pyStr : PyVal → String
  | .null => "None"
  | .pybool b => if b then "True" else "False"
  | .int n => toString n
  | .float q => toString q
  | .str s => s

/-- Model of Python truthiness, as used by `bool(v)`. -/
def pyTruthy : PyVal → Bool
  | .null => false
  | .pybool b => b
  | .int n => n != 0
  | .float q => q != 0
  | .str s => s != ""

/-- Model of Python `int(s)` on a string: optional sign then digits,
surrounding whitespace allowed; anything else raises (`none`). -/
def pyParseInt (s : String) : Option Int :=
  match (pyStrip s).data with
  | '-' :: rest => (parseNat? rest).map (fun n => -(n : Int))
  | '+' :: rest => (parseNat? rest).map (fun n => (n : Int))
  | cs => (parseNat? cs).map (fun n => (n : Int))

/-- Model of Python `int(v)`: fails (raises) on `None` and on strings that
are not integer literals; truncates floats toward zero. -/
def pyInt : PyVal → Except Unit Int
  | .null => .error ()
  | .pybool b => .ok (if b then 1 else 0)
  | .int n => .ok n
  | .float q => .ok (if q < 0 then ⌈q⌉ else ⌊q⌋)
  | .str s =>
    match pyParseInt s with
    | some n => .ok n
    | none => .error ()

/-- Model of Python `float(s)` on a string: optional sign, digits, optional
decimal point and fraction digits; anything else raises (`none`). -/
def pyParseFloat (s : String) : Option ℚ :=
  let cs0 := (pyStrip s).data
  let signed : Bool × List Char :=
    match cs0 with
    | '-' :: rest => (true, rest)
    | '+' :: rest => (false, rest)
    | cs => (false, cs)
  let intPart := signed.2.takeWhile Char.isDigit
  let rest := signed.2.dropWhile Char.isDigit
  let mag : Option ℚ :=
    match rest with
    | [] => if intPart.isEmpty then none else some ((digitsToNat intPart : ℚ))
    | '.' :: frac =>
      if frac.all Char.isDigit && !(intPart.isEmpty && frac.isEmpty) then
        some ((digitsToNat intPart : ℚ) +
          (digitsToNat frac : ℚ) / ((10 : ℚ) ^ frac.length))
      else none
    | _ => none
  mag.map (fun m => if signed.1 then -m else m)

/-- Model of Python `float(v)`: fails (raises) on `None` and on
non-numeric strings. -/
def pyFloat : PyVal → Except Unit ℚ
  | .null => .error ()
  | .pybool b => .ok (if b then 1 else 0)
  | .int n => .ok (n : ℚ)
  | .float q => .ok q
  | .str s =>
    match pyParseFloat s with
    | some q => .ok q
    | none => .error ()

/-- The sanitized `formatted_data` dict built at the top of
`InitialAnalyzer.analyze` (lines 48-54 of the source). -/
structure FormattedData where
  text : String
  channel_name : String
  has_media : Bool
  views : Int
  forwards : Int
deriving DecidableEq

/-- Lines 48-54 of `InitialAnalyzer.analyze`: build `formatted_data` from
`message_data`.  `int(...)` on the `views` / `forwards` entries can raise;
every other conversion is total.  Empty / blank text is replaced by the
sentinel `"No text content"` (Python `... .strip() or "No text content"`). -/
def mkFormatted (md : MessageData) : Except Unit FormattedData :=
  let t := pyStrip (pyStr (dictGetD md "text" (.str "")))
  let text := if t == "" then "No text content" else t
  let cname := pyStr (dictGetD md "channel_name" (.str "unknown"))
  let hm := pyTruthy (dictGetD md "has_media" (.pybool false))
  match pyInt (dictGetD md "views" (.int 0)) with
  | .error e => .error e
  | .ok v =>
    match pyInt (dictGetD md "forwards" (.int 0)) with
    | .error e => .error e
    | .ok f => .ok ⟨text, cname, hm, v, f⟩

/-- The parse outcome of the scoring response's content
(`json.loads(content)`): a JSON decode error, a JSON value that is not an
object (so `result.items()` raises), or a JSON object. -/
inductive ParsedContent where
  | malformed
  | nonObject
  | object (fields : List (String × PyVal))
deriving DecidableEq

/-- Outcome of one call to the external scoring capability: a
transport/capability error (the awaited call raises), or a response whose
content parses as described by `ParsedContent`. -/
inductive CapOutcome where
  | failure
  | success (content : ParsedContent)
deriving DecidableEq

/-- The three required numeric keys of a scoring response
(`["toxicity", "veracity", "risk_level"]` in the source). -/
def scoreKeys : List String := ["toxicity", "veracity", "risk_level"]

/-- `max(0.0, min(1.0, v))` from line 109 of the source. -/
def clamp01 (q : ℚ) : ℚ := max 0 (min 1 q)

/-- Lines 108-112: the dict comprehension
`{k: max(0.0, min(1.0, float(v))) for k, v in result.items() if k in [...]}`.
`float(v)` can raise, which aborts the whole comprehension.  Keys of a
parsed JSON object are distinct, so building the dict in order with no
overwriting is faithful. -/
def buildScores : List (String × PyVal) → Except Unit (List (String × ℚ))
  | [] => .ok []
  | (k, v) :: rest =>
    if k ∈ scoreKeys then
      match pyFloat v with
      | .error e => .error e
      | .ok q =>
        match buildScores rest with
        | .error e => .error e
        | .ok s => .ok ((k, clamp01 q) :: s)
    else buildScores rest

/-- Lookup in the scores dict (`scores[k]` yields `none` on `KeyError`). -/
def dget (s : List (String × ℚ)) (k : String) : Option ℚ :=
  (s.find? (fun kv => kv.1 == k)).map (fun kv => kv.2)

/-- Lookup in a parsed JSON object. -/
def jget (fields : List (String × PyVal)) (k : String) : Option PyVal :=
  (fields.find? (fun kv => kv.1 == k)).map (fun kv => kv.2)

/-- The `AnalysisResult` NamedTuple of the source. -/
structure AnalysisResult where
  scores : List (String × ℚ)
  requires_investigation : Bool := false
deriving DecidableEq

/-- The degraded default returned by every fallback path of
`InitialAnalyzer.analyze` (lines 102-105 and 126-128). -/
def degradedResult : AnalysisResult :=
  { scores := [("toxicity", 0), ("veracity", 0), ("risk_level", 0)]
  , requires_investigation := false }

/-- Result of one call to `InitialAnalyzer.analyze`: either an
`AnalysisResult` or an exception escaping the method. -/
inductive AnalyzeOutcome where
  | ok (r : AnalysisResult)
  | raised
deriving DecidableEq

/-- Lines 118-121 of the source: look up `scores["risk_level"]` and
`scores["toxicity"]` and compute the escalation flag; a `KeyError` falls
through to the handler at line 123, which returns the degraded default. -/
def thresholdStep (scores : List (String × ℚ)) : AnalysisResult :=
  match dget scores "risk_level", dget scores "toxicity" with
  | some rl, some t =>
    { scores := scores, requires_investigation := decide (rl + t > 1) }
  | _, _ => degradedResult

/-- Lines 107-121 of the source: run the clamping comprehension; a `float`
failure inside it falls through to the handler at line 123 (degraded
default); otherwise continue with `thresholdStep`. -/
def scoresStep (fields : List (String × PyVal)) : AnalysisResult :=
  match buildScores fields with
  | .error _ => degradedResult
  | .ok scores => thresholdStep scores

/-- Lines 96-121 of the source: react to the parsed response content.  A
JSON decode error returns the degraded default (lines 98-105); a non-object
makes `result.items()` raise, landing in the line-123 handler (degraded
default); an object proceeds to scoring. -/
def analyzeParsed : ParsedContent → AnalysisResult
  | .malformed => degradedResult
  | .nonObject => degradedResult
  | .object fields => scoresStep fields

/-- `InitialAnalyzer.analyze` (lines 42-129 of the source).

Control flow of the source: the whole body sits in a `try` whose `except`
handler logs `f"... {prompt}"` and returns the degraded default.  `prompt`
is assigned only after `formatted_data` is built, so if building
`formatted_data` raises (a non-numeric `views`/`forwards`), the handler's
f-string references the unbound local `prompt` and the resulting
`UnboundLocalError` escapes `analyze` — modelled by `.raised`.  After
`prompt` is bound, a transport/capability error on the external call lands
in the handler and returns the degraded default, and a response is handled
by `analyzeParsed`. -/
def analyze (md : MessageData) (cap : CapOutcome) : AnalyzeOutcome :=
  match mkFormatted md with
  | .error _ => .raised
  | .ok _ =>
    match cap with
    | .failure => .ok degradedResult
    | .success content => .ok (analyzeParsed content)

theorem ok_inj {a b : AnalysisResult}
    (h : AnalyzeOutcome.ok a = AnalyzeOutcome.ok b) : a = b := by
  injection h

theorem analyze_success (md : MessageData) (fd : FormattedData)
    (hfd : mkFormatted md = Except.ok fd) (content : ParsedContent) :
    analyze md (CapOutcome.success content)
      = AnalyzeOutcome.ok (analyzeParsed content) := by
  unfold analyze
  rw [hfd]

theorem analyze_failure (md : MessageData) (fd : FormattedData)
    (hfd : mkFormatted md = Except.ok fd) :
    analyze md CapOutcome.failure = AnalyzeOutcome.ok degradedResult := by
  unfold analyze
  rw [hfd]

theorem analyze_raised (md : MessageData) (e : Unit)
    (hfd : mkFormatted md = Except.error e) (cap : CapOutcome) :
    analyze md cap = AnalyzeOutcome.raised := by
  unfold analyze
  rw [hfd]

theorem scoresStep_ok (fields : List (String × PyVal)) (s : List (String × ℚ))
    (hb : buildScores fields = Except.ok s) :
    scoresStep fields = thresholdStep s := by
  unfold scoresStep
  rw [hb]

theorem scoresStep_error (fields : List (String × PyVal)) (e : Unit)
    (hb : buildScores fields = Except.error e) :
    scoresStep fields = degradedResult := by
  unfold scoresStep
  rw [hb]

theorem thresholdStep_some (s : List (String × ℚ)) (rl t : ℚ)
    (hrl : dget s "risk_level" = some rl) (ht : dget s "toxicity" = some t) :
    thresholdStep s
      = { scores := s, requires_investigation := decide (rl + t > 1) } := by
  unfold thresholdStep
  rw [hrl, ht]

theorem thresholdStep_of_missing (s : List (String × ℚ))
    (h : dget s "risk_level" = none ∨ dget s "toxicity" = none) :
    thresholdStep s = degradedResult := by
  unfold thresholdStep
  rcases h with h | h
  · rw [h]
  · rw [h]
    cases h2 : dget s "risk_level" with
    | none => rfl
    | some rl => rfl

theorem jget_eq_none_iff (fields : List (String × PyVal)) (k : String) :
    jget fields k = none ↔ k ∉ fields.map Prod.fst := by
  simp only [jget, Option.map_eq_none', List.find?_eq_none, beq_iff_eq, List.mem_map]
  push_neg
  constructor
  · intro h x hx
    exact h x hx
  · intro h x hx
    exact h x hx

/-- Characterization of the score-dict comprehension: keys outside the three
score keys never appear; a score key absent from the response is absent from
the result; a score key present in the response is coerced with `float` (which
must have succeeded) and clamped. -/
theorem buildScores_dget :
    ∀ (fields : List (String × PyVal)) (s : List (String × ℚ)),
      buildScores fields = Except.ok s → ∀ k : String,
      (k ∉ scoreKeys → dget s k = none) ∧
      (jget fields k = none → dget s k = none) ∧
      (∀ v, k ∈ scoreKeys → jget fields k = some v →
        ∃ q, pyFloat v = Except.ok q ∧ dget s k = some (clamp01 q)) := by
  intro fields
  induction fields with
  | nil =>
    intro s hs k
    simp only [buildScores] at hs
    cases hs
    refine ⟨fun _ => rfl, fun _ => rfl, fun v _ hv => ?_⟩
    simp [jget] at hv
  | cons kv rest ih =>
    intro s hs k
    obtain ⟨a, v⟩ := kv
    simp only [buildScores] at hs
    by_cases ha : a ∈ scoreKeys
    · rw [if_pos ha] at hs
      cases hf : pyFloat v with
      | error e => rw [hf] at hs; cases hs
      | ok q =>
        rw [hf] at hs
        cases hr : buildScores rest with
        | error e => rw [hr] at hs; cases hs
        | ok s2 =>
          rw [hr] at hs
          cases hs
          by_cases hak : a = k
          · subst hak
            refine ⟨fun hk => absurd ha hk, fun hj => ?_, fun w _ hw => ?_⟩
            · exfalso
              simp [jget] at hj
            · have hw2 : w = v := by
                simp [jget] at hw
                exact hw.symm
              subst hw2
              exact ⟨q, hf, by simp [dget]⟩
          · have hd : dget ((a, clamp01 q) :: s2) k = dget s2 k := by
              simp [dget, hak]
            have hj : jget ((a, v) :: rest) k = jget rest k := by
              simp [jget, hak]
            rw [hd, hj]
            exact ih s2 hr k
    · rw [if_neg ha] at hs
      by_cases hak : a = k
      · subst hak
        refine ⟨fun _ => ((ih s hs a).1 ha), fun hj => ?_, fun w hk _ => absurd hk ha⟩
        exact (ih s hs a).1 ha
      · have hj : jget ((a, v) :: rest) k = jget rest k := by
          simp [jget, hak]
        rw [hj]
        exact ih s hs k

/-- Every `AnalysisResult` produced from a parsed response is either the
degraded default or the success-path result computed from a successful
comprehension carrying both `risk_level` and `toxicity`. -/
theorem analyzeParsed_shape (content : ParsedContent) :
    analyzeParsed content = degradedResult ∨
    ∃ s rl t, dget s "risk_level" = some rl ∧ dget s "toxicity" = some t ∧
      analyzeParsed content
        = { scores := s, requires_investigation := decide (rl + t > 1) } := by
  cases content with
  | malformed => exact Or.inl rfl
  | nonObject => exact Or.inl rfl
  | object fields =>
    have hps : analyzeParsed (ParsedContent.object fields) = scoresStep fields := rfl
    rw [hps]
    cases hb : buildScores fields with
    | error e => exact Or.inl (scoresStep_error fields e hb)
    | ok s =>
      rw [scoresStep_ok fields s hb]
      cases hrl : dget s "risk_level" with
      | none => exact Or.inl (thresholdStep_of_missing s (Or.inl hrl))
      | some rl =>
        cases ht : dget s "toxicity" with
        | none => exact Or.inl (thresholdStep_of_missing s (Or.inr ht))
        | some t =>
          exact Or.inr ⟨s, rl, t, hrl, ht, thresholdStep_some s rl t hrl ht⟩

/-- Every `.ok` outcome of `analyze` is either the degraded default or the
success-path result. -/
theorem analyze_ok_cases (md : MessageData) (cap : CapOutcome) (r : AnalysisResult)
    (h : analyze md cap = AnalyzeOutcome.ok r) :
    r = degradedResult ∨
    ∃ s rl t, dget s "risk_level" = some rl ∧ dget s "toxicity" = some t ∧
      r = { scores := s, requires_investigation := decide (rl + t > 1) } := by
  unfold analyze at h
  cases hfd : mkFormatted md with
  | error e =>
    rw [hfd] at h
    exact AnalyzeOutcome.noConfusion h
  | ok fd =>
    rw [hfd] at h
    cases cap with
    | failure => exact Or.inl (ok_inj h).symm
    | success content =>
      obtain rfl : analyzeParsed content = r := ok_inj h
      exact analyzeParsed_shape content

/-- Claim C1 (corrected) — the degraded default is returned for every
transport/capability error, every unparsable response, and every parsed
response missing the `toxicity` key or the `risk_level` key (given that
`formatted_data` was built, so the handler's `prompt` reference is bound).
A response missing only `veracity` is NOT covered: see the counterexample. -/
theorem analyze_degraded_default (md : MessageData) (fd : FormattedData) (cap : CapOutcome)
    (hfd : mkFormatted md = Except.ok fd)
    (hcap : cap = CapOutcome.failure ∨ cap = CapOutcome.success ParsedContent.malformed ∨
      ∃ fields, cap = CapOutcome.success (ParsedContent.object fields) ∧
        ("toxicity" ∉ fields.map Prod.fst ∨ "risk_level" ∉ fields.map Prod.fst)) :
    analyze md cap = AnalyzeOutcome.ok degradedResult := by
  rcases hcap with rfl | rfl | ⟨fields, rfl, hmiss⟩
  · exact analyze_failure md fd hfd
  · rw [analyze_success md fd hfd]
    rfl
  · rw [analyze_success md fd hfd]
    show AnalyzeOutcome.ok (scoresStep fields) = _
    cases hb : buildScores fields with
    | error e => rw [scoresStep_error fields e hb]
    | ok s =>
      rw [scoresStep_ok fields s hb]
      have hchar := buildScores_dget fields s hb
      have hnone : dget s "risk_level" = none ∨ dget s "toxicity" = none := by
        rcases hmiss with hm | hm
        · exact Or.inr
            ((hchar "toxicity").2.1 ((jget_eq_none_iff fields "toxicity").mpr hm))
        · exact Or.inl
            ((hchar "risk_level").2.1 ((jget_eq_none_iff fields "risk_level").mpr hm))
      rw [thresholdStep_of_missing s hnone]

/-- Witness for C1's theorem at a concrete input: a transport error on an
empty `message_data` yields the degraded default. -/
theorem analyze_degraded_default_w :
    analyze [] CapOutcome.failure = AnalyzeOutcome.ok degradedResult :=
  analyze_degraded_default [] ⟨"No text content", "unknown", false, 0, 0⟩
    CapOutcome.failure rfl (Or.inl rfl)

/-- Claim C1 (counterexample) — a response that parses but is missing the
required numeric key `veracity` (while carrying `toxicity` 0.5 and
`risk_level` 0.6) does NOT yield the degraded default: the returned scores
mapping has no `veracity` key and `requires_investigation` is computed
(here `true`, since 0.6 + 0.5 > 1). -/
theorem analyze_missing_veracity_cex :
    analyze [] (CapOutcome.success (ParsedContent.object
        [("toxicity", PyVal.float (mkRat 1 2)), ("risk_level", PyVal.float (mkRat 3 5))]))
      = AnalyzeOutcome.ok
          { scores := [("toxicity", mkRat 1 2), ("risk_level", mkRat 3 5)]
          , requires_investigation := true } ∧
    ({ scores := [("toxicity", mkRat 1 2), ("risk_level", mkRat 3 5)]
     , requires_investigation := true } : AnalysisResult) ≠ degradedResult := by
  constructor
  · have h0 : analyze [] (CapOutcome.success (ParsedContent.object
        [("toxicity", PyVal.float (mkRat 1 2)), ("risk_level", PyVal.float (mkRat 3 5))]))
        = AnalyzeOutcome.ok
            { scores := [("toxicity", mkRat 1 2), ("risk_level", mkRat 3 5)]
            , requires_investigation := decide (mkRat 3 5 + mkRat 1 2 > 1) } := rfl
    have hflag : decide (mkRat 3 5 + mkRat 1 2 > 1) = true := by
      simp [Rat.mkRat_eq_div]
      norm_num
    rw [h0, hflag]
  · decide

/-- Claim C3 (code bug) — `analyze` raises past its boundary on a
`message_data` whose `views` value is a non-numeric string: `int("abc")`
raises before `prompt` is assigned at line 58, and the `except` handler at
line 124 then evaluates `f"... {prompt}"`, whose unbound-local reference
raises `UnboundLocalError` out of the method.  This holds for every outcome
of the scoring capability (which is never reached). -/
theorem analyze_raises_on_nonnumeric_views (cap : CapOutcome) :
    analyze [("views", PyVal.str "abc")] cap = AnalyzeOutcome.raised :=
  analyze_raised [("views", PyVal.str "abc")] () rfl cap

/-- Claim C5 (confirmed) — every `AnalysisResult` returned by `analyze`
carries both a `risk_level` and a `toxicity` score, and
`requires_investigation` is true iff their sum exceeds 1; so the boundary
sum of exactly 1 yields false, and the degraded all-zero path yields
false. -/
theorem requires_investigation_iff_threshold (md : MessageData) (cap : CapOutcome)
    (r : AnalysisResult) (h : analyze md cap = AnalyzeOutcome.ok r) :
    ∃ rl t, dget r.scores "risk_level" = some rl ∧ dget r.scores "toxicity" = some t ∧
      (r.requires_investigation = true ↔ rl + t > 1) := by
  rcases analyze_ok_cases md cap r h with rfl | ⟨s, rl, t, h1, h2, rfl⟩
  · refine ⟨0, 0, by decide, by decide, ?_⟩
    have hrw : degradedResult.requires_investigation = false := rfl
    rw [hrw]
    norm_num
  · exact ⟨rl, t, h1, h2, by simp⟩

/-- Witness for C5's theorem at a concrete input: scores
`toxicity=0.3, veracity=0.5, risk_level=0.9` give a sum above 1 and an
investigation flag of `true`. -/
theorem requires_investigation_iff_threshold_w :
    ∃ rl t,
      dget ({ scores :=
                [("toxicity", mkRat 3 10), ("veracity", mkRat 1 2),
                 ("risk_level", mkRat 9 10)]
            , requires_investigation := true } : AnalysisResult).scores "risk_level"
          = some rl ∧
      dget ({ scores :=
                [("toxicity", mkRat 3 10), ("veracity", mkRat 1 2),
                 ("risk_level", mkRat 9 10)]
            , requires_investigation := true } : AnalysisResult).scores "toxicity"
          = some t ∧
      (({ scores :=
            [("toxicity", mkRat 3 10), ("veracity", mkRat 1 2),
             ("risk_level", mkRat 9 10)]
        , requires_investigation := true } : AnalysisResult).requires_investigation
          = true ↔ rl + t > 1) :=
  requires_investigation_iff_threshold []
    (CapOutcome.success (ParsedContent.object
      [("toxicity", PyVal.float (mkRat 3 10)), ("veracity", PyVal.float (mkRat 1 2)),
       ("risk_level", PyVal.float (mkRat 9 10))]))
    { scores := [("toxicity", mkRat 3 10), ("veracity", mkRat 1 2),
                 ("risk_level", mkRat 9 10)]
    , requires_investigation := true }
    (by
      have h0 : analyze []
          (CapOutcome.success (ParsedContent.object
            [("toxicity", PyVal.float (mkRat 3 10)), ("veracity", PyVal.float (mkRat 1 2)),
             ("risk_level", PyVal.float (mkRat 9 10))]))
          = AnalyzeOutcome.ok
              { scores := [("toxicity", mkRat 3 10), ("veracity", mkRat 1 2),
                           ("risk_level", mkRat 9 10)]
              , requires_investigation := decide (mkRat 9 10 + mkRat 3 10 > 1) } := rfl
      have hflag : decide (mkRat 9 10 + mkRat 3 10 > 1) = true := by
        simp [Rat.mkRat_eq_div]
        norm_num
      rw [h0, hflag])

/-- Claim C7 (counterexample) — a response that parses successfully with a
numeric `toxicity` of 1.4 but no `risk_level` key returns the degraded
default, so the returned `toxicity` is 0.0 and not the clamp of 1.4 (which
is 1.0): a value above 1.0 does not become 1.0 on this path. -/
theorem analyze_unclamped_on_missing_key_cex :
    analyze [] (CapOutcome.success (ParsedContent.object
        [("toxicity", PyVal.float (mkRat 7 5))]))
      = AnalyzeOutcome.ok degradedResult ∧
    dget degradedResult.scores "toxicity" = some 0 ∧
    clamp01 (mkRat 7 5) = 1 := by
  exact ⟨rfl, by decide, by decide⟩

/-- Claim C7 (corrected) — on the successful-return path (a parsed response
whose comprehension succeeds and that carries both `toxicity` and
`risk_level`), every score key present in the response is coerced with
`float` and clamped into `[0, 1]` in the returned mapping. -/
theorem analyze_scores_clamped (md : MessageData) (fd : FormattedData)
    (fields : List (String × PyVal)) (s : List (String × ℚ)) (qt qr : ℚ)
    (hfd : mkFormatted md = Except.ok fd)
    (hb : buildScores fields = Except.ok s)
    (ht : dget s "toxicity" = some qt)
    (hr : dget s "risk_level" = some qr) :
    analyze md (CapOutcome.success (ParsedContent.object fields))
      = AnalyzeOutcome.ok
          { scores := s, requires_investigation := decide (qr + qt > 1) } ∧
    ∀ k, k ∈ scoreKeys → ∀ v, jget fields k = some v →
      ∃ q, pyFloat v = Except.ok q ∧ dget s k = some (clamp01 q) ∧
        0 ≤ clamp01 q ∧ clamp01 q ≤ 1 := by
  constructor
  · rw [analyze_success md fd hfd]
    show AnalyzeOutcome.ok (scoresStep fields) = _
    rw [scoresStep_ok fields s hb, thresholdStep_some s qr qt hr ht]
  · intro k hk v hjv
    obtain ⟨q, hq, hd⟩ := (buildScores_dget fields s hb k).2.2 v hk hjv
    exact ⟨q, hq, hd, le_max_left _ _, max_le zero_le_one (min_le_left 1 q)⟩

/-- Witness for C7's theorem at a concrete input: `toxicity=1.4` clamps to
1, `risk_level=-0.5` clamps to 0, `veracity=2` (an int) clamps to 1. -/
theorem analyze_scores_clamped_w :
    analyze [] (CapOutcome.success (ParsedContent.object
        [("toxicity", PyVal.float (mkRat 7 5)), ("risk_level", PyVal.float (mkRat (-1) 2)),
         ("veracity", PyVal.int 2)]))
      = AnalyzeOutcome.ok
          { scores := [("toxicity", 1), ("risk_level", 0), ("veracity", 1)]
          , requires_investigation := decide ((0 : ℚ) + 1 > 1) } ∧
    ∀ k, k ∈ scoreKeys → ∀ v,
      jget [("toxicity", PyVal.float (mkRat 7 5)), ("risk_level", PyVal.float (mkRat (-1) 2)),
            ("veracity", PyVal.int 2)] k = some v →
      ∃ q, pyFloat v = Except.ok q ∧
        dget [("toxicity", (1 : ℚ)), ("risk_level", 0), ("veracity", 1)] k
          = some (clamp01 q) ∧
        0 ≤ clamp01 q ∧ clamp01 q ≤ 1 :=
  analyze_scores_clamped [] ⟨"No text content", "unknown", false, 0, 0⟩
    [("toxicity", PyVal.float (mkRat 7 5)), ("risk_level", PyVal.float (mkRat (-1) 2)),
     ("veracity", PyVal.int 2)]
    [("toxicity", 1), ("risk_level", 0), ("veracity", 1)] 1 0
    rfl rfl rfl rfl

/-- A Telegram channel entity as used by the monitor: stable numeric id and
optional username handle. -/
structure Channel where
  id : Int
  username : Option String
deriving DecidableEq

/-- Python `channel.username or str(channel.id)`: `None` and the empty
string are falsy. -/
def pyOrStr (u : Option String) (d : String) : String :=
  match u with
  | some s => if s == "" then d else s
  | none => d

/-- A raw Telethon message, restricted to the attributes the monitor reads.
`views`/`forwards` are `none` when the attribute is absent (`getattr`
default 0); `replies` is `none` when the attribute is absent, `some none`
when the reply-summary object lacks its inner `replies` count; `media`
carries the attachment's type name (`type(message.media).__name__`) when an
attachment is present. -/
structure Msg where
  id : Int
  date : String
  text : Option String
  media : Option String
  edit_date : Option String
  pinned : Bool
  views : Option Int
  forwards : Option Int
  replies : Option (Option Int)
  reactions : Option (List (String × Int))
  chat_id : Int
deriving DecidableEq

/-- Stand-in for `md5(str(message.date)).encode()).hexdigest()[:8]`: a
deterministic short digest of the input string. -/
def md5short8 (s : String) : String :=
  String.mk ((toString (String.hash s).toNat).data.take 8)

/-- The `media_folder` default of `TelegramMonitor.__init__`. -/
def mediaFolder : String := "media"

/-- The `bucket_name` default of `TelegramMonitor.__init__`. -/
def bucketName : String := "telegram_monitor"

/-- Outcome of the external media transfer calls made by `_handle_media`:
`download = none` models `message.download_media` raising (no staging file
is created), `some none` models it returning `None`, `some (some path)`
models a successful download to the local staging file `path`;
`uploadOk = false` models `blob.upload_from_filename` raising. -/
structure MediaEnv where
  download : Option (Option String)
  uploadOk : Bool
deriving DecidableEq

/-- `TelegramMonitor._handle_media` (lines 298-334 of the source), over an
explicit local filesystem state `fs` (the list of staging files present).
Returns the media URL list and the new filesystem state.  The body sits in
a `try` whose handler only logs, so every failure yields an empty URL list;
`os.remove(path)` (line 329) runs only after a successful upload. -/
def handleMedia (msg : Msg) (env : MediaEnv) (fs : List String) :
    List String × List String :=
  match msg.media with
  | none => ([], fs)
  | some _ =>
    let base := toString msg.id ++ "_" ++ md5short8 msg.date
    match env.download with
    | none => ([], fs)
    | some none => ([], fs)
    | some (some path) =>
      let fs2 := path :: fs
      if env.uploadOk then
        let blobPath := "channel_" ++ toString msg.chat_id ++ "/" ++ base
        let url := "https://storage.googleapis.com/" ++ bucketName ++ "/" ++ blobPath
        ([url], fs2.erase path)
      else
        ([], fs2)

/-- The `initial_scores` column value: the backfill path stores the JSON
text `json.dumps(scores)` (a string), while the push path overwrites the
field with the raw scores dict. -/
inductive ScoresField where
  | serialized (s : String)
  | raw (m : List (String × ℚ))
deriving DecidableEq, Inhabited

/-- Model of `json.dumps` on a scores dict. -/
def dumpsScores (s : List (String × ℚ)) : String :=
  "\x7b" ++ String.intercalate ", "
    (s.map (fun kv => "\x22" ++ kv.1 ++ "\x22: " ++ toString kv.2)) ++ "\x7d"

/-- Model of `json.dumps` on a reactions dict. -/
def dumpsReactions (l : List (String × Int)) : String :=
  "\x7b" ++ String.intercalate ", "
    (l.map (fun kv => "\x22" ++ kv.1 ++ "\x22: " ++ toString kv.2)) ++ "\x7d"

/-- The row dict built by `TelegramMonitor._prepare_message_data`
(lines 371-394 of the source), one field per dict key. -/
structure Record where
  message_id : Int
  channel_id : Int
  channel_name : String
  date : String
  text : Option String
  views : Int
  forwards : Int
  replies : Int
  has_media : Bool
  media_type : Option String
  media_urls : List String
  processed : Bool
  created_at : String
  edited : Bool
  edited_at : Option String
  is_pinned : Bool
  has_reactions : Bool
  reaction_counts : Option String
  initial_scores : ScoresField
  requires_investigation : Bool
deriving DecidableEq, Inhabited

/-- An optional Python string as a `PyVal` (`None` or `str`). -/
def optTextToPy : Option String → PyVal
  | none => .null
  | some s => .str s

/-- The `message_data` dict passed to `analyze` by
`_prepare_message_data` (lines 354-362 of the source). -/
def msgToMessageData (msg : Msg) (chan : Channel) : MessageData :=
  [("text", optTextToPy msg.text),
   ("channel_name", .str (pyOrStr chan.username (toString chan.id))),
   ("has_media", .pybool msg.media.isSome),
   ("views", .int (msg.views.getD 0)),
   ("forwards", .int (msg.forwards.getD 0))]

/-- `TelegramMonitor._prepare_message_data` (lines 336-394 of the source),
given the outcome `env` of the media transfer calls and the outcome `cap`
of the scoring call; `now` is `datetime.now().isoformat()` and `fs` the
local staging state.  The method has no `try`, so an exception escaping
`analyze` propagates (`.error`); the media download side effect has already
happened by then, so the staging state is returned alongside. -/
def prepareMessageData (msg : Msg) (chan : Channel) (env : MediaEnv)
    (cap : CapOutcome) (now : String) (fs : List String) :
    Except Unit Record × List String :=
  let mediaPair :=
    match msg.media with
    | none => (([] : List String), fs)
    | some _ => handleMedia msg env fs
  let reactions :=
    match msg.reactions with
    | none => ([] : List (String × Int))
    | some l => l
  let repliesCount : Int :=
    match msg.replies with
    | none => 0
    | some none => 0
    | some (some n) => n
  match analyze (msgToMessageData msg chan) cap with
  | .raised => (.error (), mediaPair.2)
  | .ok ar =>
    (.ok { message_id := msg.id
         , channel_id := chan.id
         , channel_name := pyOrStr chan.username (toString chan.id)
         , date := msg.date
         , text := msg.text
         , views := msg.views.getD 0
         , forwards := msg.forwards.getD 0
         , replies := repliesCount
         , has_media := msg.media.isSome
         , media_type := msg.media
         , media_urls := mediaPair.1
         , processed := false
         , created_at := now
         , edited := msg.edit_date.isSome
         , edited_at := msg.edit_date
         , is_pinned := msg.pinned
         , has_reactions := !reactions.isEmpty
         , reaction_counts := if reactions.isEmpty then none
                              else some (dumpsReactions reactions)
         , initial_scores := ScoresField.serialized (dumpsScores ar.scores)
         , requires_investigation := ar.requires_investigation }, mediaPair.2)

/-- `_prepare_message_data` as used by the backfill / edit / push paths:
one normalization with a fresh staging state, yielding the record or the
propagated exception. -/
def prepRecord (msg : Msg) (chan : Channel) (env : MediaEnv)
    (cap : CapOutcome) (now : String) : Except Unit Record :=
  (prepareMessageData msg chan env cap now []).1

/-- Erase the `created_at` (ingestion) timestamp of a record. -/
def maskCreatedAt (r : Record) : Record := { r with created_at := "" }

/-- Observable events of the backfill procedure: one normalization per
message, and one `_store_messages` call per batch. -/
inductive Ev where
  | normalize (msgId : Int)
  | append (batch : List Record)
deriving DecidableEq

/-- The `asyncio.gather` of all per-message `_prepare_message_data` tasks
(lines 282-288 of the source): all normalizations run, and the first
exception propagates out of the gather. -/
def prepAll (chan : Channel) (env : Msg → MediaEnv) (cap : Msg → CapOutcome)
    (now : String) : List Msg → Except Unit (List Record)
  | [] => .ok []
  | m :: rest =>
    match prepRecord m chan (env m) (cap m) now with
    | .error e => .error e
    | .ok r =>
      match prepAll chan env cap now rest with
      | .error e => .error e
      | .ok rs => .ok (r :: rs)

/-- `TelegramMonitor._load_recent_messages` (lines 271-296 of the source):
normalize every retrieved message (up to the iterator's limit of 10), and
only then — when at least one task exists — persist the whole batch with a
single `_store_messages` call; an exception is logged and re-raised
(line 296). -/
def loadRecentMessages (msgs : List Msg) (chan : Channel) (env : Msg → MediaEnv)
    (cap : Msg → CapOutcome) (now : String) : Except Unit (List Ev) :=
  match prepAll chan env cap now msgs with
  | .error e => .error e
  | .ok recs =>
    if msgs.isEmpty then .ok []
    else .ok (msgs.map (fun m => Ev.normalize m.id) ++ [Ev.append recs])

/-- The push bindings `subscribe_to_channel` can register.  In the source
only the new-message handler is registered (lines 248-251); the
edited-message registration (lines 253-257) is commented out. -/
inductive Binding where
  | onNewMessage
  | onEdited
deriving DecidableEq

/-- Result of `client.get_entity`: a broadcast channel or some other
entity kind. -/
inductive Entity where
  | channel (c : Channel)
  | other
deriving DecidableEq

/-- Observable result of `subscribe_to_channel`: the `(ok, detail)` return
value and the push bindings left registered. -/
structure SubscribeOutcome where
  ok : Bool
  detail : String
  handlers : List Binding
deriving DecidableEq

/-- `startswith` over character lists (reduction-friendly). -/
def strStartsWith (s pre : String) : Bool := pre.data.isPrefixOf s.data

/-- `s.split("/")` over character lists (reduction-friendly). -/
def splitOnChar : List Char → Char → List (List Char)
  | [], _ => [[]]
  | c :: rest, sep =>
    let r := splitOnChar rest sep
    if c == sep then [] :: r
    else
      match r with
      | [] => [[c]]
      | g :: gs => (c :: g) :: gs

/-- Lines 237-240 of the source: normalize the channel reference — an
invite URL keeps its last `/`-segment, an `@`-handle loses the `@`. -/
def cleanUsername (s : String) : String :=
  if strStartsWith s "https://t.me/" then
    String.mk ((splitOnChar s.data '/').getLastD [])
  else if strStartsWith s "@" then
    String.mk (s.data.drop 1)
  else s

/-- Lines 248-265 of the source, after a successful channel resolution:
register the new-message handler (the edited-message registration is
commented out), run the backfill, and return.  A backfill exception is
caught by the method's handler and reported as `(False, str(e))` — the
`str(e)` text is modelled by a fixed string; the handler registered before
the backfill stays registered. -/
def subscribeResolved (u : String) (chan : Channel) (msgs : List Msg)
    (env : Msg → MediaEnv) (cap : Msg → CapOutcome) (now : String) :
    SubscribeOutcome :=
  match loadRecentMessages msgs chan env cap now with
  | .error _ =>
    { ok := false, detail := "backfill error", handlers := [Binding.onNewMessage] }
  | .ok _ =>
    { ok := true, detail := "Successfully subscribed to " ++ u
    , handlers := [Binding.onNewMessage] }

/-- `TelegramMonitor.subscribe_to_channel` (lines 230-269 of the source),
parameterized by the entity resolution outcome `resolve` (a raising
`get_entity` is `.error` with its `str(e)` text) and by the backfill's
message list and call outcomes. -/
def subscribeToChannel (username : String) (resolve : String → Except String Entity)
    (msgs : List Msg) (env : Msg → MediaEnv) (cap : Msg → CapOutcome)
    (now : String) : SubscribeOutcome :=
  match resolve (cleanUsername username) with
  | .error e => { ok := false, detail := e, handlers := [] }
  | .ok Entity.other => { ok := false, detail := "Not a valid channel", handlers := [] }
  | .ok (Entity.channel chan) =>
    subscribeResolved (cleanUsername username) chan msgs env cap now

/-- Observable result of `_handle_edited_message`: the `UPDATE` attempts
made (each carrying the row parameters) and whether a failure was logged.
The whole body sits in a `try` whose handler only logs (lines 447-448), so
the handler always returns normally. -/
structure EditOutcome where
  updateCalls : List Record
  logged : Bool
deriving DecidableEq

/-- Lines 401-445 of the source: one `UPDATE` query with the prepared row's
parameters; a query failure lands in the method's logging handler. -/
def editSecondStage (data : Record) (update : Record → Except String Unit) :
    EditOutcome :=
  match update data with
  | .ok _ => { updateCalls := [data], logged := false }
  | .error _ => { updateCalls := [data], logged := true }

/-- `TelegramMonitor._handle_edited_message` (lines 396-448 of the source),
parameterized by the warehouse `UPDATE` outcome for the prepared row. -/
def handleEditedMessage (msg : Msg) (chan : Channel) (env : MediaEnv)
    (cap : CapOutcome) (now : String)
    (update : Record → Except String Unit) : EditOutcome :=
  match prepRecord msg chan env cap now with
  | .error _ => { updateCalls := [], logged := true }
  | .ok data => editSecondStage data update

/-- The five `message_data.get` lookups of `analyze`, as they see the full
record dict passed by `_process_message` (line 523 of the source). -/
def recordToMessageData (r : Record) : MessageData :=
  [("text", optTextToPy r.text),
   ("channel_name", .str r.channel_name),
   ("has_media", .pybool r.has_media),
   ("views", .int r.views),
   ("forwards", .int r.forwards)]

/-- Observable result of `_process_message`: how many times the scoring
capability was invoked, the batches passed to `_store_messages`, and
whether an error was logged. -/
structure ProcessOutcome where
  scorerCalls : Nat
  stored : List (List Record)
  logged : Bool
deriving DecidableEq

/-- Lines 522-527 of the source: the second `analyze` call on the prepared
record dict, the overwrite of `initial_scores` (with the raw scores dict)
and `requires_investigation`, and the single-row `_store_messages` call. -/
def processSecondStage (data : Record) (cap2 : CapOutcome) (storeOk : Bool) :
    ProcessOutcome :=
  match analyze (recordToMessageData data) cap2 with
  | .raised => { scorerCalls := 2, stored := [], logged := true }
  | .ok ar =>
    let data2 := { data with initial_scores := ScoresField.raw ar.scores
                           , requires_investigation := ar.requires_investigation }
    if storeOk then { scorerCalls := 2, stored := [[data2]], logged := false }
    else { scorerCalls := 2, stored := [[data2]], logged := true }

/-- `TelegramMonitor._process_message` (lines 514-536 of the source):
`_prepare_message_data` (which itself invokes the scorer once), then a
second scorer invocation on the prepared dict, then the store; the `try`
handler only logs. -/
def processMessage (msg : Msg) (chan : Channel) (env : MediaEnv)
    (cap1 cap2 : CapOutcome) (now : String) (storeOk : Bool) : ProcessOutcome :=
  match prepRecord msg chan env cap1 now with
  | .error _ => { scorerCalls := 1, stored := [], logged := true }
  | .ok data => processSecondStage data cap2 storeOk

/-- A sample message without media, used by concrete witnesses. -/
def sampleMsg1 : Msg :=
  { id := 1, date := "2024-01-01T00:00:00", text := some "hello", media := none
  , edit_date := none, pinned := false, views := some 5, forwards := some 2
  , replies := some (some 3), reactions := none, chat_id := 100 }

/-- A second sample message without media. -/
def sampleMsg2 : Msg := { sampleMsg1 with id := 2, text := some "world" }

/-- A sample message with a photo attachment. -/
def sampleMsgMedia : Msg := { sampleMsg1 with id := 7, media := some "MessageMediaPhoto" }

/-- A sample resolved channel. -/
def sampleChan : Channel := { id := 100, username := some "example" }

/-- A media environment in which no download happens (sample messages have
no media, so it is never consulted). -/
def sampleEnv : Msg → MediaEnv := fun _ => { download := none, uploadOk := false }

/-- A scoring capability that fails with a transport error on every call,
so `analyze` returns the degraded default. -/
def sampleCap : Msg → CapOutcome := fun _ => CapOutcome.failure

/-- The record `_prepare_message_data` produces for a sample message under
`sampleEnv`/`sampleCap` at ingestion time `"t0"`. -/
def sampleRecord (m : Msg) : Record :=
  match prepRecord m sampleChan (sampleEnv m) (sampleCap m) "t0" with
  | .ok r => r
  | .error _ => default

theorem prepAll_length (chan : Channel) (env : Msg → MediaEnv)
    (cap : Msg → CapOutcome) (now : String) :
    ∀ (msgs : List Msg) (recs : List Record),
      prepAll chan env cap now msgs = Except.ok recs → recs.length = msgs.length := by
  intro msgs
  induction msgs with
  | nil =>
    intro recs h
    simp only [prepAll] at h
    cases h
    rfl
  | cons m rest ih =>
    intro recs h
    simp only [prepAll] at h
    cases h1 : prepRecord m chan (env m) (cap m) now with
    | error e => rw [h1] at h; cases h
    | ok r =>
      rw [h1] at h
      cases h2 : prepAll chan env cap now rest with
      | error e => rw [h2] at h; cases h
      | ok rs =>
        rw [h2] at h
        cases h
        simp [ih rs h2]

/-- Is an event a `_store_messages` call? -/
def isAppendEv : Ev → Bool
  | .append _ => true
  | .normalize _ => false

theorem normalizeMap_filter (msgs : List Msg) :
    (msgs.map (fun m => Ev.normalize m.id)).filter isAppendEv = [] := by
  induction msgs with
  | nil => rfl
  | cons m rest ih => simp [isAppendEv, ih]

/-- Claim C6 (confirmed) — a successful backfill of N (1 ≤ N ≤ 10) messages
normalizes all N messages and only then performs exactly one
`_store_messages` call, carrying all N records: the event trace is the N
normalizations followed by the single append, and that append is the only
append event in the trace. -/
theorem backfill_single_append (msgs : List Msg) (chan : Channel)
    (env : Msg → MediaEnv) (cap : Msg → CapOutcome) (now : String) (tr : List Ev)
    (h : loadRecentMessages msgs chan env cap now = Except.ok tr)
    (hne : msgs ≠ []) (hlen : msgs.length ≤ 10) :
    ∃ recs : List Record, recs.length = msgs.length ∧
      tr = msgs.map (fun m => Ev.normalize m.id) ++ [Ev.append recs] ∧
      tr.filter isAppendEv = [Ev.append recs] := by
  unfold loadRecentMessages at h
  cases hp : prepAll chan env cap now msgs with
  | error e => rw [hp] at h; cases h
  | ok recs =>
    rw [hp] at h
    have h2 : (if msgs.isEmpty = true then (Except.ok [] : Except Unit (List Ev))
        else Except.ok (msgs.map (fun m => Ev.normalize m.id) ++ [Ev.append recs]))
        = Except.ok tr := h
    rw [if_neg (by simpa using hne)] at h2
    cases h2
    refine ⟨recs, prepAll_length chan env cap now msgs recs hp, rfl, ?_⟩
    rw [List.filter_append, normalizeMap_filter]
    rfl

/-- Witness for C6's theorem at a concrete input: a backfill of two sample
messages yields the two normalizations followed by one append of two
records. -/
theorem backfill_single_append_w :
    ∃ recs : List Record,
      recs.length = ([sampleMsg1, sampleMsg2] : List Msg).length ∧
      ([Ev.normalize sampleMsg1.id, Ev.normalize sampleMsg2.id,
        Ev.append [sampleRecord sampleMsg1, sampleRecord sampleMsg2]] : List Ev)
        = [sampleMsg1, sampleMsg2].map (fun m => Ev.normalize m.id)
            ++ [Ev.append recs] ∧
      ([Ev.normalize sampleMsg1.id, Ev.normalize sampleMsg2.id,
        Ev.append [sampleRecord sampleMsg1, sampleRecord sampleMsg2]] : List Ev).filter
          isAppendEv
        = [Ev.append recs] :=
  backfill_single_append [sampleMsg1, sampleMsg2] sampleChan sampleEnv sampleCap "t0"
    [Ev.normalize sampleMsg1.id, Ev.normalize sampleMsg2.id,
     Ev.append [sampleRecord sampleMsg1, sampleRecord sampleMsg2]]
    rfl (by simp) (by simp)

/-- Claim C9 (confirmed) — two runs of `_prepare_message_data` on the same
message and channel, with identical media-call outcomes and an identical
scoring-response outcome, produce the same result record in every field
except `created_at` (the ingestion timestamp), and leave the same staging
state. -/
theorem prepare_deterministic_modulo_ingest (msg : Msg) (chan : Channel)
    (env : MediaEnv) (cap : CapOutcome) (t1 t2 : String) (fs : List String) :
    (prepareMessageData msg chan env cap t1 fs).1.map maskCreatedAt
      = (prepareMessageData msg chan env cap t2 fs).1.map maskCreatedAt ∧
    (prepareMessageData msg chan env cap t1 fs).2
      = (prepareMessageData msg chan env cap t2 fs).2 := by
  unfold prepareMessageData
  cases analyze (msgToMessageData msg chan) cap <;> exact ⟨rfl, rfl⟩

/-- Claim C4 (counterexample) — an attachment is downloaded to the staging
file `"media/stage"`, the durable upload fails, and `_handle_media` returns
with the staging file still present: the local file is not removed on the
upload-failure exit path. -/
theorem handleMedia_leak_cex :
    handleMedia sampleMsgMedia { download := some (some "media/stage"), uploadOk := false } []
      = ([], ["media/stage"]) := rfl

/-- Claim C4 (corrected) — the staging file is removed before returning on
the path where the download succeeded AND the durable upload succeeded; on
an upload failure the staging file is leaked (see the counterexample). -/
theorem handleMedia_cleanup_on_success (msg : Msg) (env : MediaEnv)
    (fs : List String) (path tname : String)
    (hm : msg.media = some tname)
    (hdl : env.download = some (some path))
    (hup : env.uploadOk = true) :
    (handleMedia msg env fs).2 = fs := by
  unfold handleMedia
  rw [hm, hdl, hup]
  show (path :: fs).erase path = fs
  exact List.erase_cons_head path fs

/-- Witness for C4's theorem at a concrete input: with a successful
download and upload, the staging state is restored to empty. -/
theorem handleMedia_cleanup_on_success_w :
    (handleMedia sampleMsgMedia
        { download := some (some "media/stage"), uploadOk := true } []).2 = [] :=
  handleMedia_cleanup_on_success sampleMsgMedia
    { download := some (some "media/stage"), uploadOk := true }
    [] "media/stage" "MessageMediaPhoto" rfl rfl rfl

theorem subscribeResolved_handlers (u : String) (chan : Channel) (msgs : List Msg)
    (env : Msg → MediaEnv) (cap : Msg → CapOutcome) (now : String) :
    (subscribeResolved u chan msgs env cap now).handlers = [Binding.onNewMessage] := by
  unfold subscribeResolved
  cases loadRecentMessages msgs chan env cap now <;> rfl

/-- Claim C2 (counterexample) — a fully successful subscription registers
exactly one push binding, the new-message handler: the edited-message
binding is absent (its registration is commented out in the source), so
edited-message push events trigger no correction pass. -/
theorem subscribe_registers_single_binding_cex :
    subscribeToChannel "@example" (fun _ => Except.ok (Entity.channel sampleChan))
        [] sampleEnv sampleCap "t0"
      = { ok := true, detail := "Successfully subscribed to example"
        , handlers := [Binding.onNewMessage] } ∧
    Binding.onEdited ∉ (subscribeToChannel "@example"
        (fun _ => Except.ok (Entity.channel sampleChan))
        [] sampleEnv sampleCap "t0").handlers := by
  refine ⟨rfl, ?_⟩
  rw [show (subscribeToChannel "@example" (fun _ => Except.ok (Entity.channel sampleChan))
        [] sampleEnv sampleCap "t0")
      = { ok := true, detail := "Successfully subscribed to example"
        , handlers := [Binding.onNewMessage] } from rfl]
  decide

/-- Claim C2 (corrected) — for every successful channel resolution,
`subscribe_to_channel` registers exactly one push binding, the new-message
handler, and it remains registered after the call returns (also when the
backfill fails); no edited-message binding is ever registered. -/
theorem subscribe_registers_new_message_only (username : String)
    (resolve : String → Except String Entity) (msgs : List Msg)
    (env : Msg → MediaEnv) (cap : Msg → CapOutcome) (now : String) (c : Channel)
    (hres : resolve (cleanUsername username) = Except.ok (Entity.channel c)) :
    (subscribeToChannel username resolve msgs env cap now).handlers
      = [Binding.onNewMessage] := by
  unfold subscribeToChannel
  rw [hres]
  exact subscribeResolved_handlers (cleanUsername username) c msgs env cap now

/-- Witness for C2's theorem at a concrete input. -/
theorem subscribe_registers_new_message_only_w :
    (subscribeToChannel "@example" (fun _ => Except.ok (Entity.channel sampleChan))
        [] sampleEnv sampleCap "t0").handlers = [Binding.onNewMessage] :=
  subscribe_registers_new_message_only "@example"
    (fun _ => Except.ok (Entity.channel sampleChan)) [] sampleEnv sampleCap "t0"
    sampleChan rfl

/-- Claim C8 (confirmed) — when the edited-message correction's row is
prepared and the warehouse `UPDATE` fails (for any reason, including a key
matching no stored row, if the warehouse reports that as an error), the
update was attempted exactly once with that row, the failure is logged, and
the handler returns its outcome normally; moreover under every possible
`UPDATE` behaviour the handler makes at most one attempt — never a
retry. -/
theorem edited_correction_single_attempt (msg : Msg) (chan : Channel)
    (env : MediaEnv) (cap : CapOutcome) (now : String)
    (update : Record → Except String Unit) (data : Record) (e : String)
    (hprep : prepRecord msg chan env cap now = Except.ok data)
    (hupd : update data = Except.error e) :
    (handleEditedMessage msg chan env cap now update).updateCalls = [data] ∧
    (handleEditedMessage msg chan env cap now update).logged = true ∧
    ∀ u2 : Record → Except String Unit,
      (handleEditedMessage msg chan env cap now u2).updateCalls.length ≤ 1 := by
  have h1 : handleEditedMessage msg chan env cap now update
      = { updateCalls := [data], logged := true } := by
    unfold handleEditedMessage
    rw [hprep]
    show editSecondStage data update = _
    unfold editSecondStage
    rw [hupd]
  refine ⟨by rw [h1], by rw [h1], ?_⟩
  intro u2
  unfold handleEditedMessage
  rw [hprep]
  show (editSecondStage data u2).updateCalls.length ≤ 1
  unfold editSecondStage
  cases u2 data <;> simp

/-- Witness for C8's theorem at a concrete input: an `UPDATE` that matches
no stored row and reports an error is attempted once, logged, and
swallowed. -/
theorem edited_correction_single_attempt_w :
    (handleEditedMessage sampleMsg1 sampleChan (sampleEnv sampleMsg1)
        (sampleCap sampleMsg1) "t0" (fun _ => Except.error "no rows matched")).updateCalls
      = [sampleRecord sampleMsg1] ∧
    (handleEditedMessage sampleMsg1 sampleChan (sampleEnv sampleMsg1)
        (sampleCap sampleMsg1) "t0" (fun _ => Except.error "no rows matched")).logged
      = true ∧
    ∀ u2 : Record → Except String Unit,
      (handleEditedMessage sampleMsg1 sampleChan (sampleEnv sampleMsg1)
          (sampleCap sampleMsg1) "t0" u2).updateCalls.length ≤ 1 :=
  edited_correction_single_attempt sampleMsg1 sampleChan (sampleEnv sampleMsg1)
    (sampleCap sampleMsg1) "t0" (fun _ => Except.error "no rows matched")
    (sampleRecord sampleMsg1) "no rows matched" rfl rfl

theorem prepRecord_serialized (msg : Msg) (chan : Channel) (env : MediaEnv)
    (cap : CapOutcome) (now : String) (data : Record)
    (h : prepRecord msg chan env cap now = Except.ok data) :
    ∃ s, data.initial_scores = ScoresField.serialized s := by
  unfold prepRecord prepareMessageData at h
  cases hA : analyze (msgToMessageData msg chan) cap with
  | raised =>
    rw [hA] at h
    exact Except.noConfusion h
  | ok ar =>
    rw [hA] at h
    injection h with h2
    exact ⟨dumpsScores ar.scores, by rw [← h2]⟩

/-- Claim C10 (confirmed) — on the push path with a stored result, the
scoring capability is invoked twice for the same message (once inside
`_prepare_message_data`, once more by `_process_message` on the prepared
dict), the single stored row carries the second invocation's scores as a
raw mapping, while the record `_prepare_message_data` produced (as the
backfill path stores it) carries `initial_scores` as a JSON-serialized
string — so the two paths store differently-shaped rows. -/
theorem push_path_double_scoring (msg : Msg) (chan : Channel) (env : MediaEnv)
    (cap1 cap2 : CapOutcome) (now : String) (data : Record) (ar : AnalysisResult)
    (hprep : prepRecord msg chan env cap1 now = Except.ok data)
    (h2 : analyze (recordToMessageData data) cap2 = AnalyzeOutcome.ok ar) :
    (processMessage msg chan env cap1 cap2 now true).scorerCalls = 2 ∧
    (processMessage msg chan env cap1 cap2 now true).stored
      = [[{ data with initial_scores := ScoresField.raw ar.scores
                    , requires_investigation := ar.requires_investigation }]] ∧
    (∃ s, data.initial_scores = ScoresField.serialized s) ∧
    ∀ s, ScoresField.raw ar.scores ≠ ScoresField.serialized s := by
  have h1 : processMessage msg chan env cap1 cap2 now true
      = processSecondStage data cap2 true := by
    unfold processMessage
    rw [hprep]
  have h3 : processSecondStage data cap2 true
      = { scorerCalls := 2
        , stored := [[{ data with initial_scores := ScoresField.raw ar.scores, requires_investigation := ar.requires_investigation }]]
        , logged := false } := by
    unfold processSecondStage
    rw [h2]
    rfl
  refine ⟨by rw [h1, h3], by rw [h1, h3],
    prepRecord_serialized msg chan env cap1 now data hprep, ?_⟩
  intro s hcontra
  exact ScoresField.noConfusion hcontra

/-- Witness for C10's theorem at a concrete input: the degraded scorer
outcome on both invocations; the stored row carries the raw scores mapping
while the prepared record carries the serialized string. -/
theorem push_path_double_scoring_w :
    (processMessage sampleMsg1 sampleChan (sampleEnv sampleMsg1)
        (sampleCap sampleMsg1) CapOutcome.failure "t0" true).scorerCalls = 2 ∧
    (processMessage sampleMsg1 sampleChan (sampleEnv sampleMsg1)
        (sampleCap sampleMsg1) CapOutcome.failure "t0" true).stored
      = [[{ sampleRecord sampleMsg1 with
              initial_scores := ScoresField.raw degradedResult.scores
            , requires_investigation := degradedResult.requires_investigation }]] ∧
    (∃ s, (sampleRecord sampleMsg1).initial_scores = ScoresField.serialized s) ∧
    ∀ s, ScoresField.raw degradedResult.scores ≠ ScoresField.serialized s :=
  push_path_double_scoring sampleMsg1 sampleChan (sampleEnv sampleMsg1)
    (sampleCap sampleMsg1) CapOutcome.failure "t0"
    (sampleRecord sampleMsg1) degradedResult rfl rfl

end Veriver
